import Mathlib

/-!
Verification of the pinniped concierge server wiring
(internal/concierge/server/server.go) and the integration-test helper
(test/library/access.go), together with spec-modelled components
(authenticator cache, dynamic certificate provider consumers, and the
impersonation proxy handler) whose implementations live outside the
visible fragment.
-/

set_option maxHeartbeats 1000000

namespace Pinniped

/-- A TLS certificate plus private key pair, kept abstract as PEM text. -/
structure CertKeyPair where
  certPEM : String
  keyPEM : String
deriving DecidableEq, Repr

/-- Identity produced by successful authentication: username plus groups. -/
structure Identity where
  username : String
  groups : List String
deriving DecidableEq, Repr

/-- Key of the authenticator cache: (api group, kind, name). -/
structure AuthenticatorID where
  apiGroup : String
  kind : String
  name : String
deriving DecidableEq, Repr

/-- Modelled from the spec: an authenticator plugin is the capability to map
a presented token to an identity or to report not-authenticated; missing from
src (the authenticator packages are external collaborators), so it is kept
abstract as a finite token table. -/
abbrev Authenticator : Type := List (String × Identity)

/-- Modelled from the spec: run one authenticator on an optional bearer token. -/
def authenticate (a : Authenticator) (token : Option String) : Option Identity :=
  match token with
  | none => none
  | some t => (a.find? (fun p => decide (p.1 = t))).map (fun p => p.2)

/-! ## Authenticator cache (spec-modelled)

The authncache package is not under src; only its construction site
(authncache.New in server.go line 114) and the spec describe it. Modelled
from the spec: a mapping from AuthenticatorID to Authenticator with Get,
Store and Delete, each operation atomic; a concurrent history is therefore
an arbitrary linearization, i.e. an arbitrary sequence of operations. -/

/-- Modelled from the spec: the cache contents, newest entry first. -/
abbrev AuthCache : Type := List (AuthenticatorID × Authenticator)

/-- Modelled from the spec: the empty cache produced by authncache.New. -/
def authncacheNew : AuthCache := []

/-- Modelled from the spec: atomically store a value, replacing the key. -/
def cacheStore (c : AuthCache) (id : AuthenticatorID) (a : Authenticator) : AuthCache :=
  (id, a) :: c.filter (fun p => decide (p.1 ≠ id))

/-- Modelled from the spec: atomically delete a key. -/
def cacheDelete (c : AuthCache) (id : AuthenticatorID) : AuthCache :=
  c.filter (fun p => decide (p.1 ≠ id))

/-- Modelled from the spec: look up a key, returning the live value or none. -/
def cacheGet (c : AuthCache) (id : AuthenticatorID) : Option Authenticator :=
  (c.find? (fun p => decide (p.1 = id))).map (fun p => p.2)

/-- One atomic cache mutation, for histories of writer operations. -/
inductive CacheOp where
  | store (id : AuthenticatorID) (a : Authenticator)
  | delete (id : AuthenticatorID)
deriving DecidableEq

/-- Apply one mutation. -/
def applyOp (c : AuthCache) (op : CacheOp) : AuthCache :=
  match op with
  | .store id a => cacheStore c id a
  | .delete id => cacheDelete c id

/-- Apply a linearized history of mutations to a cache, oldest first. -/
def applyOps (c : AuthCache) (ops : List CacheOp) : AuthCache :=
  ops.foldl applyOp c

/-! ## Impersonation proxy handler (spec-modelled)

impersonator.New lives in internal/concierge/impersonator, which is not
under src; only its call site (server.go line 175) is. Modelled from the
spec, section 4.4. -/

/-- An HTTP request as the proxy sees it. -/
structure HttpRequest where
  method : String
  path : String
  query : String
  headers : List (String × String)
  body : String
  token : Option String
deriving DecidableEq, Repr

/-- Whether a header name is one of the identity impersonation headers. -/
def isImpersonationHeader (name : String) : Bool :=
  name = "Impersonate-User" || name = "Impersonate-Group"

/-- Modelled from the spec: build the upstream request for an authenticated
identity: strip every client-supplied impersonation header, add one
Impersonate-User header and one Impersonate-Group header per group, and
preserve method, path, query and body. -/
def buildUpstreamRequest (ident : Identity) (req : HttpRequest) : HttpRequest :=
  { req with
    headers :=
      req.headers.filter (fun h => !isImpersonationHeader h.1)
        ++ [("Impersonate-User", ident.username)]
        ++ ident.groups.map (fun g => ("Impersonate-Group", g)) }

/-- Observable outcome of one proxy request: response status, the list of
requests issued upstream, and how many authentication attempts were made. -/
structure ProxyResult where
  status : Nat
  upstream : List HttpRequest
  authAttempts : Nat
deriving DecidableEq, Repr

/-- Modelled from the spec: the per-request impersonation proxy handler.
It looks up the configured authenticator id in the cache; on a cache miss
or an authentication failure it answers 401 with no upstream request and
no retry; on success it forwards exactly one upstream request carrying the
impersonation headers of the authenticated identity. -/
def handleProxyRequest (c : AuthCache) (id : AuthenticatorID)
    (req : HttpRequest) : ProxyResult :=
  match cacheGet c id with
  | none => { status := 401, upstream := [], authAttempts := 0 }
  | some a =>
    match authenticate a req.token with
    | none => { status := 401, upstream := [], authAttempts := 1 }
    | some ident =>
      { status := 200, upstream := [buildUpstreamRequest ident req], authAttempts := 1 }

/-! ## Server wiring (internal/concierge/server/server.go)

Dynamic certificate provider instances and the authenticator cache instance
are identified by allocation ids (each call to dynamiccert.New or
authncache.New yields a fresh heap object in the source); the pure wiring
below records which instance is installed where. External fallible calls
(config loading, pod metadata, controller preparation, the apiserver
library) are parameters of the run, supplied by a RunServerEnv. -/

/-- Current value of every dynamic certificate provider instance, by id.
Corresponds to the mutable state written by the external reconciliation
controllers and read at handshake or issuance time. -/
abbrev ProviderState : Type := Nat → Option CertKeyPair

/-- Set one provider instance to a pair, leaving the others unchanged. -/
def setProvider (st : ProviderState) (pid : Nat) (c : CertKeyPair) : ProviderState :=
  fun i => if i = pid then some c else st i

/-- TLS configuration of a server: a fixed certificate list captured at
construction time (tls.Config.Certificates) and an optional dynamic
certificate source consulted on every handshake (the GeneratedCert /
GetCertificate mechanism), recorded as a provider instance id. -/
structure TLSConfig where
  minVersion : Nat
  certificates : List CertKeyPair
  getCertificate : Option Nat
deriving DecidableEq, Repr

/-- The certificate a server with this TLS configuration presents at one
handshake, given the provider states current at that handshake. -/
def tlsServedCert (c : TLSConfig) (st : ProviderState) : Option CertKeyPair :=
  match c.getCertificate with
  | some pid => st pid
  | none => c.certificates.head?

/-- The cert issuer built by dynamiccertauthority.New: a certificate
authority backed by the signing-key dynamic provider instance. -/
structure CertIssuer where
  signingProviderId : Nat
deriving DecidableEq, Repr

/-- dynamiccertauthority.New from server.go line 152. -/
def dynamiccertauthorityNew (providerId : Nat) : CertIssuer :=
  { signingProviderId := providerId }

/-- The aggregated API server configuration assembled by
getAggregatedAPIServerConfig (the post-start hook is elided: no claim
concerns it). generatedCertProviderId records which dynamic provider the
ApplyTo call installs as SecureServing.Cert, per the comment at server.go
lines 224-232. -/
structure AggregatedAPIServerConfig where
  etcdPathPrefix : String
  etcdEnabled : Bool
  generatedCertProviderId : Nat
  bindPort : Nat
  authenticatorCacheId : Nat
  issuer : CertIssuer
deriving DecidableEq, Repr

/-- Results of the external library calls made while building the
aggregated config: apigroup.Make (internal/apigroup, not under src) and
recommendedOptions.ApplyTo (k8s apiserver library). -/
structure AggEnv where
  apiGroupMake : Option String
  applyToErr : Option String
deriving DecidableEq, Repr

/-- The concierge login API group name, loginv1alpha1.GroupName. -/
def loginGroupName : String := "login.concierge.pinniped.dev"

/-- getAggregatedAPIServerConfig from server.go lines 199-246. -/
def getAggregatedAPIServerConfig (dynamicCertProvider : Nat)
    (authenticator : Nat) (issuer : CertIssuer)
    (apiGroupSuffix : String) (env : AggEnv) :
    Except String AggregatedAPIServerConfig :=
  match env.apiGroupMake with
  | none =>
    .error ("cannot make api group from " ++ loginGroupName ++ "/" ++ apiGroupSuffix)
  | some apiGroup =>
    match env.applyToErr with
    | some e => .error e
    | none =>
      .ok { etcdPathPrefix := "/registry/" ++ apiGroup
            etcdEnabled := false
            generatedCertProviderId := dynamicCertProvider
            bindPort := 8443
            authenticatorCacheId := authenticator
            issuer := issuer }

/-- Results of the fallible external calls runServer makes, in source
order, plus the outcome of the proxy listener goroutine and of the
aggregated server run. -/
structure RunServerEnv where
  loadConfig : Except String String
  loadPodInfo : Except String String
  prepareControllers : Except String Unit
  aggEnv : AggEnv
  completeNew : Except String Unit
  newImpersonationCA : Except String Unit
  issueImpersonationCert : Except String CertKeyPair
  newImpersonator : Except String Unit
  proxyListenErr : Option String
  serverRunResult : Except String Unit

/-- How the two servers end up wired on the success path. -/
structure ServerWiring where
  cacheId : Nat
  servingProviderId : Nat
  signingProviderId : Nat
  aggConfig : AggregatedAPIServerConfig
  proxyCacheId : Nat
  proxyAddr : String
  proxyTLSConfig : TLSConfig
deriving DecidableEq, Repr

/-- Observable outcome of runServer: its return value, whether each server
was started, what the proxy goroutine logged, and the wiring built. -/
structure RunResult where
  result : Except String Unit
  proxyStarted : Bool
  aggregatedStarted : Bool
  loggedErrors : List String
  wiring : Option ServerWiring

/-- A startup failure: runServer returns the wrapped error, nothing was
started, nothing was wired. -/
def failRes (msg : String) : RunResult :=
  { result := .error msg
    proxyStarted := false
    aggregatedStarted := false
    loggedErrors := []
    wiring := none }

/-- runServer from server.go lines 100-196. The config is reduced to the
one field the visible control flow reads (APIGroupSuffix); every other
config value only flows into PrepareControllers, which is external. -/
def runServer (env : RunServerEnv) : RunResult :=
  match env.loadConfig with
  | .error e => failRes ("could not load config: " ++ e)
  | .ok apiGroupSuffix =>
    match env.loadPodInfo with
    | .error e => failRes ("could not read pod metadata: " ++ e)
    | .ok _podInfo =>
      -- authncache.New(): the single cache instance, id 0
      let authenticators : Nat := 0
      -- dynamiccert.New(), first call: serving-certificate provider, id 0
      let dynamicServingCertProvider : Nat := 0
      -- dynamiccert.New(), second call: signing-key provider, id 1
      let dynamicSigningCertProvider : Nat := 1
      match env.prepareControllers with
      | .error e => failRes ("could not prepare controllers: " ++ e)
      | .ok _startControllersFunc =>
        match getAggregatedAPIServerConfig dynamicServingCertProvider
            authenticators (dynamiccertauthorityNew dynamicSigningCertProvider)
            apiGroupSuffix env.aggEnv with
        | .error e => failRes ("could not configure aggregated API server: " ++ e)
        | .ok aggregatedAPIServerConfig =>
          match env.completeNew with
          | .error e => failRes ("could not create aggregated API server: " ++ e)
          | .ok _server =>
            match env.newImpersonationCA with
            | .error e => failRes ("could not create impersonation CA: " ++ e)
            | .ok _impersonationCA =>
              match env.issueImpersonationCert with
              | .error e => failRes ("could not create impersonation cert: " ++ e)
              | .ok impersonationCert =>
                match env.newImpersonator with
                | .error e => failRes ("could not create impersonation proxy: " ++ e)
                | .ok _impersonationProxy =>
                  { result := env.serverRunResult
                    proxyStarted := true
                    aggregatedStarted := true
                    loggedErrors :=
                      match env.proxyListenErr with
                      | some e => ["could not serve impersonation proxy: " ++ e]
                      | none => []
                    wiring := some
                      { cacheId := authenticators
                        servingProviderId := dynamicServingCertProvider
                        signingProviderId := dynamicSigningCertProvider
                        aggConfig := aggregatedAPIServerConfig
                        proxyCacheId := authenticators
                        proxyAddr := "0.0.0.0:8444"
                        proxyTLSConfig :=
                          { minVersion := 12
                            certificates := [impersonationCert]
                            getCertificate := none } } }

/-! ## Fail-closed serving through a dynamic provider (spec-modelled)

The dynamiccert package and the apiserver TLS machinery are not under src;
the consumer behaviour is described by the spec (section 4.2) and by the
source comment at server.go lines 224-232. -/

/-- Outcome of one request against a TLS server whose certificate comes
from a dynamic provider. -/
inductive HandshakeResult where
  | unavailable
  | served (c : CertKeyPair)
deriving DecidableEq, Repr

/-- Modelled from the spec: the TLS-serving component consuming a dynamic
certificate provider (the aggregated API server machinery that holds the
provider as SecureServing.Cert, per the server.go comment). The provider
is read through its instance id on every incoming request: when it holds
no certificate the request is answered with a service-unavailable
response; when it holds a pair the handshake is served with that pair.
There is no restart and no internal retry loop. -/
def serveWithProvider (pid : Nat) (st : ProviderState) : HandshakeResult :=
  match st pid with
  | none => .unavailable
  | some c => .served c

/-! ## Integration-test helper (test/library/access.go) -/

/-- Result of the initial ClusterRoleBindings Get call: success, a k8s
StatusError carrying an HTTP code, or some error that is not a
StatusError. -/
inductive GetBindingResult where
  | found
  | statusErr (code : Nat)
  | nonStatusErr
deriving DecidableEq, Repr

/-- Observable outcome of one addTestClusterRoleBinding call: whether a
require call failed the test, whether Create was called (and for which
binding name), how many cleanups were registered, and which binding name
the registered cleanup deletes. -/
structure HelperOutcome where
  testFailed : Bool
  createAttempted : Bool
  createTarget : Option String
  cleanupsRegistered : Nat
  cleanupDeletesName : Option String
deriving DecidableEq, Repr

/-- addTestClusterRoleBinding from access.go lines 175-194. A failing
require call (require.True, require.Equal, require.NoError) stops the
helper immediately, so a failure before t.Cleanup registers no cleanup. -/
def addTestClusterRoleBinding (bindingName : String)
    (getRes : GetBindingResult) (createOk : Bool) : HelperOutcome :=
  match getRes with
  | .found =>
    { testFailed := false
      createAttempted := false
      createTarget := none
      cleanupsRegistered := 1
      cleanupDeletesName := some bindingName }
  | .statusErr code =>
    if code = 404 then
      if createOk then
        { testFailed := false
          createAttempted := true
          createTarget := some bindingName
          cleanupsRegistered := 1
          cleanupDeletesName := some bindingName }
      else
        { testFailed := true
          createAttempted := true
          createTarget := some bindingName
          cleanupsRegistered := 0
          cleanupDeletesName := none }
    else
      { testFailed := true
        createAttempted := false
        createTarget := none
        cleanupsRegistered := 0
        cleanupDeletesName := none }
  | .nonStatusErr =>
    { testFailed := true
      createAttempted := false
      createTarget := none
      cleanupsRegistered := 0
      cleanupDeletesName := none }

/-! ## Concrete inputs used by witnesses and counterexamples -/

/-- The fixed serving certificate captured by the proxy at startup. -/
def cert0 : CertKeyPair := { certPEM := "startup-cert", keyPEM := "startup-key" }

/-- A different certificate, standing for a rotated serving pair. -/
def certRot : CertKeyPair := { certPEM := "rotated-cert", keyPEM := "rotated-key" }

/-- An environment in which every external startup call succeeds. -/
def envOK : RunServerEnv :=
  { loadConfig := .ok "pinniped.dev"
    loadPodInfo := .ok "concierge-namespace"
    prepareControllers := .ok ()
    aggEnv := { apiGroupMake := some "login.concierge.pinniped.dev", applyToErr := none }
    completeNew := .ok ()
    newImpersonationCA := .ok ()
    issueImpersonationCert := .ok cert0
    newImpersonator := .ok ()
    proxyListenErr := none
    serverRunResult := .ok () }

/-- Provider state after a rotation: the serving provider (instance id 0)
now holds certRot; every other instance is unset. -/
def stRot : ProviderState := fun i => if i = 0 then some certRot else none

/-- The everywhere-unset provider state. -/
def stUnset : ProviderState := fun _ => none

/-- A concrete authenticator id, as in spec scenario A. -/
def webhookID : AuthenticatorID :=
  { apiGroup := "group.example.com", kind := "webhook", name := "primary" }

/-- A concrete authenticator accepting the token good-token as alice. -/
def aliceAuthn : Authenticator :=
  [("good-token", { username := "alice", groups := ["admins"] })]

/-- A concrete inbound request carrying a forged impersonation header. -/
def forgedReq : HttpRequest :=
  { method := "GET"
    path := "/api/v1/namespaces"
    query := "limit=5"
    headers := [("Impersonate-User", "root"), ("Accept", "application/json")]
    body := ""
    token := some "good-token" }

/-! ## Cache history lemmas -/

theorem mem_applyOp {p : AuthenticatorID × Authenticator} {c : AuthCache}
    {op : CacheOp} (h : p ∈ applyOp c op) : p ∈ c ∨ op = .store p.1 p.2 := by
  cases op with
  | store id a =>
    simp only [applyOp, cacheStore] at h
    rcases List.mem_cons.mp h with h1 | h1
    · subst h1
      exact Or.inr rfl
    · exact Or.inl (List.mem_of_mem_filter h1)
  | delete id =>
    exact Or.inl (List.mem_of_mem_filter h)

theorem mem_applyOps {p : AuthenticatorID × Authenticator}
    {ops : List CacheOp} {c : AuthCache}
    (h : p ∈ applyOps c ops) : p ∈ c ∨ CacheOp.store p.1 p.2 ∈ ops := by
  induction ops generalizing c with
  | nil => exact Or.inl h
  | cons op ops ih =>
    rcases ih (c := applyOp c op) h with h1 | h1
    · rcases mem_applyOp h1 with h2 | h2
      · exact Or.inl h2
      · exact Or.inr (by simp [h2])
    · exact Or.inr (List.mem_cons_of_mem _ h1)

theorem cacheGet_mem {c : AuthCache} {id : AuthenticatorID}
    {a : Authenticator} (h : cacheGet c id = some a) : (id, a) ∈ c := by
  unfold cacheGet at h
  rcases Option.map_eq_some'.mp h with ⟨p, hfind, hp2⟩
  have hmem := List.mem_of_find?_eq_some hfind
  have hkey : p.1 = id := by simpa using List.find?_some hfind
  have hpa : p = (id, a) := by
    cases p
    simp_all
  rw [hpa] at hmem
  exact hmem

theorem cacheGet_store_self (c : AuthCache) (id : AuthenticatorID)
    (a : Authenticator) : cacheGet (cacheStore c id a) id = some a := by
  simp [cacheGet, cacheStore, List.find?]

theorem find?_filter_ne (c : AuthCache) (id id' : AuthenticatorID)
    (h : id' ≠ id) :
    List.find? (fun p => decide (p.1 = id'))
        (c.filter (fun p => decide (p.1 ≠ id)))
      = List.find? (fun p => decide (p.1 = id')) c := by
  rw [List.find?_filter]
  congr 1
  funext p
  by_cases hq : p.1 = id'
  · have hne : p.1 ≠ id := by rw [hq]; exact h
    simp [hq, hne, h]
  · simp [hq]

theorem cacheGet_store_other (c : AuthCache) (id id' : AuthenticatorID)
    (a : Authenticator) (h : id' ≠ id) :
    cacheGet (cacheStore c id a) id' = cacheGet c id' := by
  unfold cacheGet cacheStore
  have hhead : decide ((id, a).1 = id') = false := by
    simp only [decide_eq_false_iff_not]
    exact fun he => h he.symm
  rw [show ((id, a) :: c.filter (fun p => decide (p.1 ≠ id))).find?
        (fun p => decide (p.1 = id'))
      = (c.filter (fun p => decide (p.1 ≠ id))).find?
        (fun p => decide (p.1 = id')) from by
    simp [List.find?, hhead]]
  rw [find?_filter_ne c id id' h]

/-! ## Impersonation header lemmas -/

theorem filter_imp_after_strip (hs : List (String × String)) :
    (hs.filter (fun h => !isImpersonationHeader h.1)).filter
      (fun h => isImpersonationHeader h.1) = [] := by
  induction hs with
  | nil => rfl
  | cons p hs ih =>
    cases hp : isImpersonationHeader p.1 <;>
      simp [List.filter_cons, hp, ih]

theorem filter_imp_group_headers (gs : List String) :
    (gs.map (fun g => (("Impersonate-Group", g) : String × String))).filter
        (fun h => isImpersonationHeader h.1)
      = gs.map (fun g => ("Impersonate-Group", g)) := by
  induction gs with
  | nil => rfl
  | cons g gs ih => simp [List.filter_cons, isImpersonationHeader, ih]

theorem filter_not_imp_group_headers (gs : List String) :
    (gs.map (fun g => (("Impersonate-Group", g) : String × String))).filter
        (fun h => !isImpersonationHeader h.1) = [] := by
  induction gs with
  | nil => rfl
  | cons g gs ih => simp [List.filter_cons, isImpersonationHeader, ih]

theorem filter_not_imp_idem (hs : List (String × String)) :
    (hs.filter (fun h => !isImpersonationHeader h.1)).filter
      (fun h => !isImpersonationHeader h.1)
      = hs.filter (fun h => !isImpersonationHeader h.1) := by
  induction hs with
  | nil => rfl
  | cons p hs ih =>
    cases hp : isImpersonationHeader p.1 <;>
      simp [List.filter_cons, hp, ih]

/-! ## Claims about the authenticator cache and the proxy handler -/

/-- Claim C8: over every linearized history of atomic Store and Delete
operations on the authenticator cache (each operation is atomic, so any
concurrent execution is observationally some linearization), a Get that
returns a value returns one previously stored under exactly that id —
never a value stored under a different id — and a Get on a missing id is
a not-found result; and Store replaces an existing key atomically from
the point of view of a reader: after the store, a Get of that key sees
the new value while a Get of any other key is unaffected. -/
theorem C8_cache_get_integrity :
    (∀ (ops : List CacheOp) (id : AuthenticatorID) (a : Authenticator),
      cacheGet (applyOps authncacheNew ops) id = some a →
        CacheOp.store id a ∈ ops)
    ∧ (∀ (c : AuthCache) (id : AuthenticatorID) (a : Authenticator),
        cacheGet (cacheStore c id a) id = some a)
    ∧ (∀ (c : AuthCache) (id id' : AuthenticatorID) (a : Authenticator),
        id' ≠ id → cacheGet (cacheStore c id a) id' = cacheGet c id') := by
  refine ⟨?_, cacheGet_store_self, cacheGet_store_other⟩
  intro ops id a h
  rcases mem_applyOps (cacheGet_mem h) with h1 | h1
  · simp [authncacheNew] at h1
  · exact h1

/-- Witness for C8 at a concrete history. -/
theorem C8_cache_get_integrity_witness :
    CacheOp.store webhookID aliceAuthn ∈ [CacheOp.store webhookID aliceAuthn] :=
  C8_cache_get_integrity.1 [CacheOp.store webhookID aliceAuthn]
    webhookID aliceAuthn rfl

/-- Claim C3: on an authenticator-cache miss or an authentication failure
the proxy answers 401, issues no upstream request, and makes at most one
authentication attempt (it never retries). -/
theorem C3_auth_failure_401_no_upstream :
    ∀ (c : AuthCache) (id : AuthenticatorID) (req : HttpRequest),
      (cacheGet c id = none ∨
        ∃ a, cacheGet c id = some a ∧ authenticate a req.token = none) →
      (handleProxyRequest c id req).status = 401
      ∧ (handleProxyRequest c id req).upstream = []
      ∧ (handleProxyRequest c id req).authAttempts ≤ 1 := by
  intro c id req h
  rcases h with h | ⟨a, ha, hauth⟩
  · simp [handleProxyRequest, h]
  · simp [handleProxyRequest, ha, hauth]

/-- A request presenting the bad token of spec scenario B. -/
def badTokenReq : HttpRequest := { forgedReq with token := some "bad-token" }

/-- Witness for C3 at spec scenario B: the webhook authenticator for
alice is registered, the caller presents bad-token. -/
theorem C3_auth_failure_401_no_upstream_witness :
    (handleProxyRequest (cacheStore authncacheNew webhookID aliceAuthn)
        webhookID badTokenReq).status = 401
    ∧ (handleProxyRequest (cacheStore authncacheNew webhookID aliceAuthn)
        webhookID badTokenReq).upstream = []
    ∧ (handleProxyRequest (cacheStore authncacheNew webhookID aliceAuthn)
        webhookID badTokenReq).authAttempts ≤ 1 :=
  C3_auth_failure_401_no_upstream
    (cacheStore authncacheNew webhookID aliceAuthn) webhookID badTokenReq
    (Or.inr ⟨aliceAuthn, rfl, rfl⟩)

/-- Claim C2: whenever the proxy authenticates a request successfully, it
forwards exactly one upstream request whose impersonation headers are one
Impersonate-User header with the authenticated username and one
Impersonate-Group header per authenticated group, with every
client-supplied impersonation header removed, and whose method, path,
query, body and remaining headers equal those of the inbound request. -/
theorem C2_impersonation_forwarding :
    ∀ (c : AuthCache) (id : AuthenticatorID) (req : HttpRequest)
      (a : Authenticator) (ident : Identity),
      cacheGet c id = some a →
      authenticate a req.token = some ident →
      ∃ u, (handleProxyRequest c id req).upstream = [u]
        ∧ u.method = req.method
        ∧ u.path = req.path
        ∧ u.query = req.query
        ∧ u.body = req.body
        ∧ u.headers.filter (fun h => isImpersonationHeader h.1)
            = ("Impersonate-User", ident.username)
              :: ident.groups.map (fun g => ("Impersonate-Group", g))
        ∧ u.headers.filter (fun h => !isImpersonationHeader h.1)
            = req.headers.filter (fun h => !isImpersonationHeader h.1) := by
  intro c id req a ident ha hauth
  refine ⟨buildUpstreamRequest ident req, ?_, rfl, rfl, rfl, rfl, ?_, ?_⟩
  · simp [handleProxyRequest, ha, hauth]
  · show (buildUpstreamRequest ident req).headers.filter _ = _
    simp only [buildUpstreamRequest, List.filter_append,
      filter_imp_after_strip, filter_imp_group_headers, List.nil_append]
    simp [List.filter_cons, isImpersonationHeader]
  · show (buildUpstreamRequest ident req).headers.filter _ = _
    simp only [buildUpstreamRequest, List.filter_append,
      filter_not_imp_idem, filter_not_imp_group_headers, List.append_nil]
    simp [List.filter_cons, isImpersonationHeader]

/-- The identity of spec scenario A. -/
def aliceIdentity : Identity := { username := "alice", groups := ["admins"] }

/-- Witness for C2 at spec scenarios A and D: the caller presents
good-token together with a forged Impersonate-User header. -/
theorem C2_impersonation_forwarding_witness :
    ∃ u, (handleProxyRequest (cacheStore authncacheNew webhookID aliceAuthn)
          webhookID forgedReq).upstream = [u]
      ∧ u.method = forgedReq.method
      ∧ u.path = forgedReq.path
      ∧ u.query = forgedReq.query
      ∧ u.body = forgedReq.body
      ∧ u.headers.filter (fun h => isImpersonationHeader h.1)
          = ("Impersonate-User", aliceIdentity.username)
            :: aliceIdentity.groups.map (fun g => ("Impersonate-Group", g))
      ∧ u.headers.filter (fun h => !isImpersonationHeader h.1)
          = forgedReq.headers.filter (fun h => !isImpersonationHeader h.1) :=
  C2_impersonation_forwarding
    (cacheStore authncacheNew webhookID aliceAuthn) webhookID forgedReq
    aliceAuthn aliceIdentity rfl rfl

/-- Claim C10: the test helper creates the ClusterRoleBinding with the
given name exactly when the initial Get fails with a 404 StatusError,
skips creation when the binding is already present, fails the test before
any Create on every other Get error, and registers exactly one cleanup
deleting that binding on every non-failing path. -/
theorem C10_helper_create_and_cleanup :
    ∀ (name : String) (g : GetBindingResult) (createOk : Bool),
      ((addTestClusterRoleBinding name g createOk).createAttempted = true ↔
          g = .statusErr 404)
      ∧ ((addTestClusterRoleBinding name g createOk).createAttempted = true →
          (addTestClusterRoleBinding name g createOk).createTarget = some name)
      ∧ ((g = .nonStatusErr ∨ ∃ c, g = .statusErr c ∧ c ≠ 404) →
          (addTestClusterRoleBinding name g createOk).testFailed = true
          ∧ (addTestClusterRoleBinding name g createOk).createAttempted = false)
      ∧ ((addTestClusterRoleBinding name g createOk).testFailed = false →
          (addTestClusterRoleBinding name g createOk).cleanupsRegistered = 1
          ∧ (addTestClusterRoleBinding name g createOk).cleanupDeletesName
              = some name) := by
  intro name g createOk
  rcases g with _ | code | _ <;> cases createOk <;>
    simp only [addTestClusterRoleBinding] <;>
    (try by_cases hc : code = 404) <;> simp_all

/-- Witness for C10 at a concrete run: Get returns 404, Create succeeds. -/
theorem C10_helper_create_and_cleanup_witness :
    (addTestClusterRoleBinding "integration-test-user-readonly-role-binding"
        (GetBindingResult.statusErr 404) true).createAttempted = true
    ∧ (addTestClusterRoleBinding "integration-test-user-readonly-role-binding"
        (GetBindingResult.statusErr 404) true).cleanupsRegistered = 1
    ∧ (addTestClusterRoleBinding "integration-test-user-readonly-role-binding"
        (GetBindingResult.statusErr 404) true).cleanupDeletesName
        = some "integration-test-user-readonly-role-binding" := by
  have h := C10_helper_create_and_cleanup
    "integration-test-user-readonly-role-binding"
    (GetBindingResult.statusErr 404) true
  exact ⟨h.1.mpr rfl, (h.2.2.2 rfl).1, (h.2.2.2 rfl).2⟩

/-! ## Characterization of the success-path wiring -/

theorem getAgg_ok_fields {d a : Nat} {i : CertIssuer} {s : String}
    {e : AggEnv} {cfg : AggregatedAPIServerConfig}
    (h : getAggregatedAPIServerConfig d a i s e = .ok cfg) :
    cfg.generatedCertProviderId = d
    ∧ cfg.authenticatorCacheId = a
    ∧ cfg.issuer = i
    ∧ cfg.bindPort = 8443
    ∧ cfg.etcdEnabled = false := by
  unfold getAggregatedAPIServerConfig at h
  split at h
  · exact absurd h (by simp)
  · split at h
    · exact absurd h (by simp)
    · cases h
      exact ⟨rfl, rfl, rfl, rfl, rfl⟩

theorem runServer_wiring_fields {env : RunServerEnv} {w : ServerWiring}
    (h : (runServer env).wiring = some w) :
    w.cacheId = 0
    ∧ w.servingProviderId = 0
    ∧ w.signingProviderId = 1
    ∧ w.proxyCacheId = 0
    ∧ w.aggConfig.generatedCertProviderId = 0
    ∧ w.aggConfig.authenticatorCacheId = 0
    ∧ w.aggConfig.issuer = dynamiccertauthorityNew 1
    ∧ w.proxyTLSConfig.getCertificate = none
    ∧ (∃ cert, env.issueImpersonationCert = .ok cert
        ∧ w.proxyTLSConfig.certificates = [cert]) := by
  obtain ⟨lc, pi, pc, ⟨agm, ape⟩, cn, ca, ic, ni, ple, srr⟩ := env
  cases lc with
  | error e => simp [runServer, failRes] at h
  | ok s =>
  cases pi with
  | error e => simp [runServer, failRes] at h
  | ok pinfo =>
  cases pc with
  | error e => simp [runServer, failRes] at h
  | ok u1 =>
  cases agm with
  | none => simp [runServer, getAggregatedAPIServerConfig, failRes] at h
  | some grp =>
  cases ape with
  | some e => simp [runServer, getAggregatedAPIServerConfig, failRes] at h
  | none =>
  cases cn with
  | error e => simp [runServer, getAggregatedAPIServerConfig, failRes] at h
  | ok u2 =>
  cases ca with
  | error e => simp [runServer, getAggregatedAPIServerConfig, failRes] at h
  | ok u3 =>
  cases ic with
  | error e => simp [runServer, getAggregatedAPIServerConfig, failRes] at h
  | ok cert =>
  cases ni with
  | error e => simp [runServer, getAggregatedAPIServerConfig, failRes] at h
  | ok u4 =>
  simp only [runServer, getAggregatedAPIServerConfig, Option.some.injEq] at h
  subst h
  exact ⟨rfl, rfl, rfl, rfl, rfl, rfl, rfl, rfl, cert, rfl, rfl⟩

/-- The wiring produced by runServer under envOK. -/
def wiringOK : ServerWiring :=
  { cacheId := 0
    servingProviderId := 0
    signingProviderId := 1
    aggConfig :=
      { etcdPathPrefix := "/registry/login.concierge.pinniped.dev"
        etcdEnabled := false
        generatedCertProviderId := 0
        bindPort := 8443
        authenticatorCacheId := 0
        issuer := dynamiccertauthorityNew 1 }
    proxyCacheId := 0
    proxyAddr := "0.0.0.0:8444"
    proxyTLSConfig :=
      { minVersion := 12
        certificates := [cert0]
        getCertificate := none } }

/-! ## Claims about the server wiring -/

/-- Claim C5: the credential-exchange endpoint and the impersonation proxy
share a single authenticator cache: the one cache created at startup is
both the authenticator of the aggregated API server configuration and the
cache handed to the impersonation proxy constructor, and a Store under an
id is observable via Get on that shared cache. -/
theorem C5_single_cache_shared :
    ∀ (env : RunServerEnv) (w : ServerWiring),
      (runServer env).wiring = some w →
      w.aggConfig.authenticatorCacheId = w.cacheId
      ∧ w.proxyCacheId = w.cacheId
      ∧ (∀ (c : AuthCache) (id : AuthenticatorID) (a : Authenticator),
          cacheGet (cacheStore c id a) id = some a) := by
  intro env w h
  obtain ⟨h1, h2, h3, h4, h5, h6, h7, h8, h9⟩ := runServer_wiring_fields h
  exact ⟨by rw [h6, h1], by rw [h4, h1], cacheGet_store_self⟩

/-- Witness for C5 at the all-successful environment. -/
theorem C5_single_cache_shared_witness :
    wiringOK.aggConfig.authenticatorCacheId = wiringOK.cacheId
    ∧ wiringOK.proxyCacheId = wiringOK.cacheId
    ∧ cacheGet (cacheStore authncacheNew webhookID aliceAuthn) webhookID
        = some aliceAuthn :=
  ⟨(C5_single_cache_shared envOK wiringOK rfl).1,
   (C5_single_cache_shared envOK wiringOK rfl).2.1,
   (C5_single_cache_shared envOK wiringOK rfl).2.2 authncacheNew webhookID aliceAuthn⟩

/-- Claim C6: the two dynamic certificate provider instances created at
startup are distinct and never conflated: the serving-certificate provider
is the TLS certificate source of the aggregated API server configuration,
the signing-key provider backs the certificate authority of the credential
issuer, and neither role is filled by the other instance. -/
theorem C6_two_distinct_providers :
    ∀ (env : RunServerEnv) (w : ServerWiring),
      (runServer env).wiring = some w →
      w.servingProviderId ≠ w.signingProviderId
      ∧ w.aggConfig.generatedCertProviderId = w.servingProviderId
      ∧ w.aggConfig.issuer.signingProviderId = w.signingProviderId
      ∧ w.aggConfig.generatedCertProviderId ≠ w.aggConfig.issuer.signingProviderId := by
  intro env w h
  obtain ⟨h1, h2, h3, h4, h5, h6, h7, h8, h9⟩ := runServer_wiring_fields h
  refine ⟨by rw [h2, h3]; decide, by rw [h5, h2], by rw [h7, h3]; rfl, ?_⟩
  rw [h5, h7]
  decide

/-- Witness for C6 at the all-successful environment. -/
theorem C6_two_distinct_providers_witness :
    wiringOK.servingProviderId ≠ wiringOK.signingProviderId
    ∧ wiringOK.aggConfig.generatedCertProviderId = wiringOK.servingProviderId
    ∧ wiringOK.aggConfig.issuer.signingProviderId = wiringOK.signingProviderId
    ∧ wiringOK.aggConfig.generatedCertProviderId
        ≠ wiringOK.aggConfig.issuer.signingProviderId :=
  C6_two_distinct_providers envOK wiringOK rfl

/-- Counterexample to claim C1 at a concrete input: under the
all-successful startup environment, after the serving provider is rotated
to hold certRot, a proxy handshake still serves the startup-captured
certificate cert0, and the proxy TLS configuration has no dynamic
certificate source at all — it does not read the current provider value
at handshake time. -/
theorem C1_counterexample_fixed_cert_ignores_rotation :
    (runServer envOK).wiring.map (fun w => tlsServedCert w.proxyTLSConfig stRot)
        = some (some cert0)
    ∧ (runServer envOK).wiring.map (fun w => w.proxyTLSConfig.getCertificate)
        = some none
    ∧ stRot 0 = some certRot
    ∧ cert0 ≠ certRot := by
  refine ⟨rfl, rfl, rfl, ?_⟩
  decide

/-- Claim C1 as amended: the impersonation proxy TLS configuration
captures a fixed serving certificate at startup (the one issued by the
freshly created impersonation CA) and has no dynamic certificate source,
so the certificate it serves is identical across handshakes regardless of
any provider rotation; the dynamic serving-certificate provider is
instead the handshake-time certificate source of the aggregated API
server. -/
theorem C1_amended_fixed_startup_cert :
    ∀ (env : RunServerEnv) (w : ServerWiring) (st st' : ProviderState),
      (runServer env).wiring = some w →
      w.proxyTLSConfig.getCertificate = none
      ∧ (∃ cert, env.issueImpersonationCert = .ok cert
          ∧ w.proxyTLSConfig.certificates = [cert]
          ∧ tlsServedCert w.proxyTLSConfig st = some cert)
      ∧ tlsServedCert w.proxyTLSConfig st = tlsServedCert w.proxyTLSConfig st'
      ∧ w.aggConfig.generatedCertProviderId = w.servingProviderId := by
  intro env w st st' h
  obtain ⟨h1, h2, h3, h4, h5, h6, h7, h8, cert, hc1, hc2⟩ :=
    runServer_wiring_fields h
  refine ⟨h8, ⟨cert, hc1, hc2, ?_⟩, ?_, by rw [h5, h2]⟩
  · simp [tlsServedCert, h8, hc2]
  · simp [tlsServedCert, h8]

/-- Witness for the amended C1 at the all-successful environment. -/
theorem C1_amended_fixed_startup_cert_witness :
    wiringOK.proxyTLSConfig.getCertificate = none
    ∧ (∃ cert, envOK.issueImpersonationCert = .ok cert
        ∧ wiringOK.proxyTLSConfig.certificates = [cert]
        ∧ tlsServedCert wiringOK.proxyTLSConfig stUnset = some cert)
    ∧ tlsServedCert wiringOK.proxyTLSConfig stUnset
        = tlsServedCert wiringOK.proxyTLSConfig stRot
    ∧ wiringOK.aggConfig.generatedCertProviderId = wiringOK.servingProviderId :=
  C1_amended_fixed_startup_cert envOK wiringOK stUnset stRot rfl

/-- Claim C4: a TLS server consuming a dynamic certificate provider (the
aggregated API server, whose configured certificate source is the serving
provider installed by runServer) answers service-unavailable while the
provider is unset, and once an external mutator sets the provider the very
next request is served with the new pair — same configuration, no restart,
no internal retry loop. -/
theorem C4_fail_closed_self_healing :
    ∀ (env : RunServerEnv) (w : ServerWiring) (st : ProviderState)
      (pair : CertKeyPair),
      (runServer env).wiring = some w →
      st w.aggConfig.generatedCertProviderId = none →
      serveWithProvider w.aggConfig.generatedCertProviderId st = .unavailable
      ∧ serveWithProvider w.aggConfig.generatedCertProviderId
          (setProvider st w.aggConfig.generatedCertProviderId pair)
          = .served pair := by
  intro env w st pair hw hunset
  constructor
  · simp [serveWithProvider, hunset]
  · simp [serveWithProvider, setProvider]

/-- Witness for C4 at the all-successful environment with the provider
initially unset, then set to certRot. -/
theorem C4_fail_closed_self_healing_witness :
    serveWithProvider wiringOK.aggConfig.generatedCertProviderId stUnset
        = .unavailable
    ∧ serveWithProvider wiringOK.aggConfig.generatedCertProviderId
        (setProvider stUnset wiringOK.aggConfig.generatedCertProviderId certRot)
        = .served certRot :=
  C4_fail_closed_self_healing envOK wiringOK stUnset certRot rfl rfl

/-- The error-context strings runServer wraps failures with, one per
fallible startup step. -/
def wrapPrefixes : List String :=
  ["could not load config: ",
   "could not read pod metadata: ",
   "could not prepare controllers: ",
   "could not configure aggregated API server: ",
   "could not create aggregated API server: ",
   "could not create impersonation CA: ",
   "could not create impersonation cert: ",
   "could not create impersonation proxy: "]

/-- Some fallible startup step of runServer fails. -/
def startupFailure (env : RunServerEnv) : Prop :=
  (∃ e, env.loadConfig = .error e)
  ∨ (∃ e, env.loadPodInfo = .error e)
  ∨ (∃ e, env.prepareControllers = .error e)
  ∨ env.aggEnv.apiGroupMake = none
  ∨ (∃ e, env.aggEnv.applyToErr = some e)
  ∨ (∃ e, env.completeNew = .error e)
  ∨ (∃ e, env.newImpersonationCA = .error e)
  ∨ (∃ e, env.issueImpersonationCert = .error e)
  ∨ (∃ e, env.newImpersonator = .error e)

/-- Claim C7: every configuration or startup failure is fatal: if loading
the config, reading pod metadata, preparing the controllers, building the
aggregated API server configuration, creating the aggregated server,
constructing the impersonation CA, issuing the impersonation certificate,
or constructing the impersonation proxy fails, runServer returns an error
wrapped in one of its context strings and neither the proxy nor the
aggregated server is started. -/
theorem C7_startup_failures_fatal :
    ∀ env : RunServerEnv, startupFailure env →
      (∃ p e, p ∈ wrapPrefixes ∧ (runServer env).result = .error (p ++ e))
      ∧ (runServer env).proxyStarted = false
      ∧ (runServer env).aggregatedStarted = false
      ∧ (runServer env).wiring = none := by
  intro env h
  obtain ⟨lc, pi, pc, ⟨agm, ape⟩, cn, ca, ic, ni, ple, srr⟩ := env
  cases lc <;> cases pi <;> cases pc <;> cases agm <;> cases ape <;>
    cases cn <;> cases ca <;> cases ic <;> cases ni <;>
    first
      | (refine ⟨⟨_, _, ?_, rfl⟩, rfl, rfl, rfl⟩; simp [wrapPrefixes])
      | (simp [startupFailure] at h)

/-- A startup environment whose impersonation proxy constructor fails. -/
def envFail : RunServerEnv := { envOK with newImpersonator := .error "boom" }

/-- Witness for C7 at a concrete failing environment. -/
theorem C7_startup_failures_fatal_witness :
    (∃ p e, p ∈ wrapPrefixes ∧ (runServer envFail).result = .error (p ++ e))
    ∧ (runServer envFail).proxyStarted = false
    ∧ (runServer envFail).aggregatedStarted = false
    ∧ (runServer envFail).wiring = none :=
  C7_startup_failures_fatal envFail
    (Or.inr (Or.inr (Or.inr (Or.inr (Or.inr (Or.inr (Or.inr (Or.inr
      ⟨"boom", rfl⟩))))))))

/-- Claim C9: a failure of the impersonation proxy TLS listener is only
logged by the spawned goroutine and is not fatal: on the success path of
every startup step, runServer still returns the aggregated server run
result, the aggregated server is started, and the listener error appears
only in the log. -/
theorem C9_proxy_listen_error_only_logged :
    ∀ (env : RunServerEnv) (s pinfo grp : String) (cert : CertKeyPair)
      (e : String),
      env.loadConfig = .ok s →
      env.loadPodInfo = .ok pinfo →
      env.prepareControllers = .ok () →
      env.aggEnv.apiGroupMake = some grp →
      env.aggEnv.applyToErr = none →
      env.completeNew = .ok () →
      env.newImpersonationCA = .ok () →
      env.issueImpersonationCert = .ok cert →
      env.newImpersonator = .ok () →
      env.proxyListenErr = some e →
      (runServer env).proxyStarted = true
      ∧ (runServer env).aggregatedStarted = true
      ∧ (runServer env).result = env.serverRunResult
      ∧ (runServer env).loggedErrors
          = ["could not serve impersonation proxy: " ++ e] := by
  intro env s pinfo grp cert e h1 h2 h3 h4 h5 h6 h7 h8 h9 h10
  obtain ⟨lc, pi, pc, ⟨agm, ape⟩, cn, ca, ic, ni, ple, srr⟩ := env
  simp_all [runServer, getAggregatedAPIServerConfig]

/-- A startup environment in which everything succeeds but the proxy
listener fails. -/
def envListenFail : RunServerEnv :=
  { envOK with proxyListenErr := some "listen tcp :8444: address in use" }

/-- Witness for C9 at a concrete environment with a failing listener. -/
theorem C9_proxy_listen_error_only_logged_witness :
    (runServer envListenFail).proxyStarted = true
    ∧ (runServer envListenFail).aggregatedStarted = true
    ∧ (runServer envListenFail).result = envListenFail.serverRunResult
    ∧ (runServer envListenFail).loggedErrors
        = ["could not serve impersonation proxy: "
            ++ "listen tcp :8444: address in use"] :=
  C9_proxy_listen_error_only_logged envListenFail
    "pinniped.dev" "concierge-namespace" "login.concierge.pinniped.dev"
    cert0 "listen tcp :8444: address in use"
    rfl rfl rfl rfl rfl rfl rfl rfl rfl rfl

end Pinniped
